import Mathlib

/-!
Shallow embedding of the `video_transcriber` service and proofs about it.

The embedded code comes from:
  * `app/adapters/ffmpeg_audio_extraction_adapter.py`
    (`FFmpegAudioExtractionAdapter.extract_audio_stream`,
     `FFmpegAudioExtractionAdapter._extract_audio_with_ffmpeg`)
  * `app/adapters/openai_transcription_adapter.py`
    (`OpenAITranscriptionAdapter.transcribe_from_upload`)
  * `app/service/manager.py` (`ServiceManager.transcribe_media`)
  * `app/entrypoints/fastapi_app.py` (`transcribe_media` endpoint, `health_check`)
  * `app/entrypoints/dtos.py` (`TranscriptionResponse`, `ErrorResponse`)

External effects (the ffmpeg subprocess and the remote OpenAI call) are
modelled as explicit outcome parameters; the temporary-file system is modelled
as an association list from path to byte content; byte streams carry their
content together with the current read position, so that `seek(0)` and
`read()` behave as in Python.
-/

set_option autoImplicit false

namespace VideoTranscriber

/-- Byte strings (`bytes` in Python), as lists of byte values. -/
abbrev Bytes := List Nat

/-- Python `x or d` for an optional string: `None` and `""` are falsy and
yield the default `d`, any other string yields itself. -/
def pyOr (x : Option String) (d : String) : String :=
  match x with
  | none => d
  | some s => if s = "" then d else s

/-- Structural split of a character list on a separator character
(the behaviour of Python `str.split(sep)` on the character level). -/
def splitOnChar (sep : Char) : List Char → List (List Char)
  | [] => [[]]
  | c :: rest =>
    let r := splitOnChar sep rest
    if c = sep then [] :: r
    else
      match r with
      | h :: t => (c :: h) :: t
      | [] => [[c]]

/-- ASCII-wise lowercasing of a string (Python `str.lower()` on ASCII). -/
def strToLower (s : String) : String :=
  String.mk (s.data.map Char.toLower)

/-- Whether the first character list has the second as an initial segment. -/
def charsStartWith : List Char → List Char → Bool
  | _, [] => true
  | [], _ :: _ => false
  | c :: s, p :: ps => c = p && charsStartWith s ps

/-- Python `s.startswith(p)`. -/
def strStartsWith (s p : String) : Bool :=
  charsStartWith s.data p.data

/-- The final path component, as `pathlib.PurePosixPath(s).name`:
the path is split on `/`, empty segments and `.` segments are dropped,
and the last remaining segment is the name (empty if none remains). -/
def pathName (s : String) : String :=
  String.mk (((splitOnChar '/' s.data).filter
    (fun seg => decide (seg ≠ []) && decide (seg ≠ ['.']))).getLastD [])

/-- Split a reversed character list at the first `'.'` (i.e. at the last dot
of the original list).  Returns `(after, before)`: the characters after the
dot and the characters before it, both still reversed; `none` if no dot. -/
def splitLastDotRev : List Char → Option (List Char × List Char)
  | [] => none
  | c :: rest =>
    if c = '.' then some ([], rest)
    else match splitLastDotRev rest with
      | some (e, st) => some (c :: e, st)
      | none => none

/-- `pathlib.PurePath(s).suffix`: the extension of the final component,
including the dot; empty when the name has no dot, starts with its only
dot (hidden files) or ends with the dot. -/
def pySuffix (s : String) : String :=
  let n := pathName s
  match splitLastDotRev n.data.reverse with
  | some (e, st) => if st.isEmpty || e.isEmpty then "" else String.mk ('.' :: e.reverse)
  | none => ""

/-- `pathlib.PurePath(s).stem`: the final component without its suffix. -/
def pyStem (s : String) : String :=
  let n := pathName s
  match splitLastDotRev n.data.reverse with
  | some (e, st) => if st.isEmpty || e.isEmpty then n else String.mk st.reverse
  | none => n

/-- The fixed allow-list of audio extensions accepted without transcoding
(`ffmpeg_audio_extraction_adapter.py`, line 43). -/
def SUPPORTED_EXTENSIONS : List String := [".mp3", ".wav", ".m4a", ".flac", ".ogg"]

/-- A `fastapi.UploadFile`: optional filename, optional declared content type,
the underlying byte content, and the stream's current read position. -/
structure UploadFile where
  filename : Option String
  contentType : Option String
  content : Bytes
  pos : Nat
deriving DecidableEq, Repr

/-- A binary stream value as handed to the transcription client: either the
upload's own file object (`uploaded_file.file`) or an in-memory buffer
(`BytesIO`), with its content and current position. -/
inductive StreamVal where
  | original (content : Bytes) (pos : Nat)
  | memory (content : Bytes) (pos : Nat)
deriving DecidableEq, Repr

/-- A Python exception escaping the pipeline: `ffmpeg.Error` or anything else. -/
inductive PyError where
  | ffmpegError
  | other (msg : String)
deriving DecidableEq, Repr

/-- Outcome of one attempt of the transcoding body (the `try` block of
`_extract_audio_with_ffmpeg`): the ffmpeg run succeeds and leaves the given
bytes in the output file, the ffmpeg run raises `ffmpeg.Error`, or some other
exception is raised inside the block. -/
inductive ExtractionOutcome where
  | success (outputBytes : Bytes)
  | ffmpegError
  | otherError (msg : String)
deriving DecidableEq, Repr

/-- The temporary-file system: an association list from path to content. -/
abbrev Fs := List (String × Bytes)

/-- Write `b` at path `p` (the path must already have an entry). -/
def fsWrite (fs : Fs) (p : String) (b : Bytes) : Fs :=
  fs.map (fun e => if e.1 = p then (p, b) else e)

/-- `os.unlink(p)`: remove the entry at path `p`. -/
def fsUnlink (fs : Fs) (p : String) : Fs :=
  fs.filter (fun e => e.1 != p)

/-- Read the content at path `p`, `none` if the file does not exist. -/
def fsRead (fs : Fs) (p : String) : Option Bytes :=
  match fs.find? (fun e => e.1 = p) with
  | some e => some e.2
  | none => none

/-- The fresh path handed out by `tempfile.NamedTemporaryFile` for the input
temporary file (`input_temp.name`). -/
def inputTempPath : String := "tmp_input"

/-- The fresh path handed out by `tempfile.NamedTemporaryFile` for the output
temporary file (`output_temp.name`). -/
def outputTempPath : String := "tmp_output"

/-- Result of `FFmpegAudioExtractionAdapter.extract_audio_stream` (and of its
helper): the returned `(stream, filename)` pair or the escaping exception,
whether the transcoding helper was entered (temporary files created and the
ffmpeg path taken), and the final state of the temporary-file system created
by the call. -/
structure ExtractResult where
  result : Except PyError (StreamVal × String)
  enteredTranscoding : Bool
  fs : Fs
deriving Repr

/-- `FFmpegAudioExtractionAdapter._extract_audio_with_ffmpeg` (lines 56-113).
Two temporary files are created (`delete=False`), the upload is read from its
current position and written to the input file, ffmpeg is run, on success the
output file is read back into a `BytesIO` named `stem + ".mp3"`; the
`finally` block unlinks both temporary files on every exit path. -/
def extract_audio_with_ffmpeg (uf : UploadFile) (o : ExtractionOutcome) : ExtractResult :=
  let fs0 : Fs := [(inputTempPath, []), (outputTempPath, [])]
  let content := uf.content.drop uf.pos
  let fs1 := fsWrite fs0 inputTempPath content
  match o with
  | .success out =>
      let fs2 := fsWrite fs1 outputTempPath out
      let audioContent := (fsRead fs2 outputTempPath).getD []
      let audioFilename := pyStem (pyOr uf.filename "audio") ++ ".mp3"
      { result := .ok (.memory audioContent 0, audioFilename),
        enteredTranscoding := true,
        fs := fsUnlink (fsUnlink fs2 inputTempPath) outputTempPath }
  | .ffmpegError =>
      { result := .error .ffmpegError,
        enteredTranscoding := true,
        fs := fsUnlink (fsUnlink fs1 inputTempPath) outputTempPath }
  | .otherError m =>
      { result := .error (.other m),
        enteredTranscoding := true,
        fs := fsUnlink (fsUnlink fs1 inputTempPath) outputTempPath }

/-- `FFmpegAudioExtractionAdapter.extract_audio_stream` (lines 23-54).
If `Path(filename or "").suffix.lower()` is in the supported list, the upload
is seeked to 0 and its own stream returned with the original filename
(`filename or "audio"`); otherwise the ffmpeg helper is called. -/
def extract_audio_stream (uf : UploadFile) (o : ExtractionOutcome) : ExtractResult :=
  let file_extension := strToLower (pySuffix (pyOr uf.filename ""))
  if file_extension ∈ SUPPORTED_EXTENSIONS then
    { result := .ok (.original uf.content 0, pyOr uf.filename "audio"),
      enteredTranscoding := false,
      fs := [] }
  else
    extract_audio_with_ffmpeg uf o

/-- The arguments of the call
`client.audio.transcriptions.create(model=model, file=(filename, stream), ...)`. -/
structure ApiCall where
  model : String
  filename : String
  stream : StreamVal
deriving DecidableEq, Repr

/-- Result of `OpenAITranscriptionAdapter.transcribe_from_upload`: the
transcription text or the escaping exception, the remote call that was made
(if any), and the extraction trace. -/
structure TranscribeResult where
  result : Except PyError String
  apiCall : Option ApiCall
  enteredTranscoding : Bool
  fs : Fs
deriving Repr

/-- `OpenAITranscriptionAdapter.transcribe_from_upload` (lines 26-66).
With an injected extraction service the stream and filename come from
`extract_audio_stream`; without one the upload is seeked to 0 and used
directly with `filename or "audio"`.  The remote call's behaviour is the
parameter `apiResult`; any exception is re-raised. -/
def transcribe_from_upload (hasExtractionService : Bool) (uf : UploadFile)
    (model : String) (o : ExtractionOutcome) (apiResult : Except PyError String) :
    TranscribeResult :=
  if hasExtractionService then
    let ex := extract_audio_stream uf o
    match ex.result with
    | .error e =>
        { result := .error e, apiCall := none,
          enteredTranscoding := ex.enteredTranscoding, fs := ex.fs }
    | .ok (audio_stream, filename) =>
        { result := apiResult,
          apiCall := some { model := model, filename := filename, stream := audio_stream },
          enteredTranscoding := ex.enteredTranscoding, fs := ex.fs }
  else
    { result := apiResult,
      apiCall := some { model := model, filename := pyOr uf.filename "audio",
                        stream := .original uf.content 0 },
      enteredTranscoding := false, fs := [] }

/-- `ServiceManager.transcribe_media` (`app/service/manager.py`, lines 22-45):
logs and delegates to the injected transcription service. -/
def ServiceManager.transcribe_media (hasExtractionService : Bool) (uf : UploadFile)
    (model : String) (o : ExtractionOutcome) (apiResult : Except PyError String) :
    TranscribeResult :=
  transcribe_from_upload hasExtractionService uf model o apiResult

/-- Truth of `file.content_type and file.content_type.startswith(("audio/", "video/"))`:
the negation of the endpoint's rejection condition (`fastapi_app.py`, line 61). -/
def validContentType (ct : Option String) : Bool :=
  match ct with
  | none => false
  | some s =>
    if s = "" then false
    else strStartsWith s "audio/" || strStartsWith s "video/"

/-- The value the `transcribe_media` endpoint returns to FastAPI:
a bare Python tuple `({key: msg}, status)` (the rejection branch, line 63),
a `dtos.TranscriptionResponse` (line 76), or a `JSONResponse` built from a
`dtos.ErrorResponse` (line 80, the `success` and `error` fields of the body). -/
inductive EndpointReturn where
  | pythonTuple (key : String) (msg : String) (status : Nat)
  | transcriptionResponse (transcription : String) (success : Bool)
  | jsonResponse (status : Nat) (success : Bool) (error : String)
deriving DecidableEq, Repr

/-- What the endpoint caused downstream: whether `ServiceManager` was called,
the remote transcription call (if any), whether the transcoding helper ran,
and the final temporary-file system. -/
structure EndpointTrace where
  serviceManagerCalled : Bool
  apiCall : Option ApiCall
  enteredTranscoding : Bool
  fs : Fs
deriving DecidableEq, Repr

/-- The `POST /transcribe` endpoint `transcribe_media`
(`fastapi_app.py`, lines 40-80).  `modelForm` is the optional `model` form
field; FastAPI substitutes the declared default `"whisper-1"` when the field
is omitted.  If the declared content type is falsy or starts with neither
`audio/` nor `video/`, the endpoint returns the bare tuple
`({"msg": "El archivo debe ser de tipo audio o video"}, 400)` without calling
anything; otherwise it calls `service_manager.transcribe_media` and converts
any exception to a 500 `JSONResponse` with the constant `ErrorResponse` body. -/
def transcribe_media (file : UploadFile) (modelForm : Option String)
    (hasExtractionService : Bool) (o : ExtractionOutcome)
    (apiResult : Except PyError String) : EndpointReturn × EndpointTrace :=
  let model := modelForm.getD "whisper-1"
  if validContentType file.contentType then
    let r := ServiceManager.transcribe_media hasExtractionService file model o apiResult
    let response : EndpointReturn :=
      match r.result with
      | .ok transcription => .transcriptionResponse transcription true
      | .error _ => .jsonResponse 500 false "Error interno del servidor"
    (response,
     { serviceManagerCalled := true, apiCall := r.apiCall,
       enteredTranscoding := r.enteredTranscoding, fs := r.fs })
  else
    (.pythonTuple "msg" "El archivo debe ser de tipo audio o video" 400,
     { serviceManagerCalled := false, apiCall := none,
       enteredTranscoding := false, fs := [] })

/-- The `GET /health` endpoint `health_check` (`fastapi_app.py`, lines 82-86):
returns the dict `{"status": "healthy"}`, which FastAPI serves with its
default status code 200.  The `Unit` argument stands for the (empty) request
and dependency state. -/
def health_check (_ : Unit) : Nat × List (String × String) :=
  (200, [("status", "healthy")])

/-- Spec-level classification predicate, from the spec's words: the
filename's extension, compared case-insensitively, is one of
`.mp3, .wav, .m4a, .flac, .ogg`. -/
def specAlreadySupported (filename : String) : Prop :=
  ∃ e ∈ [".mp3", ".wav", ".m4a", ".flac", ".ogg"], strToLower (pySuffix filename) = e

instance (filename : String) : Decidable (specAlreadySupported filename) := by
  unfold specAlreadySupported; infer_instance

/-! ## Helper lemmas -/

theorem extract_helper_entered (uf : UploadFile) (o : ExtractionOutcome) :
    (extract_audio_with_ffmpeg uf o).enteredTranscoding = true := by
  cases o <;> rfl

theorem extract_entered_eq (uf : UploadFile) (o : ExtractionOutcome) :
    (extract_audio_stream uf o).enteredTranscoding
      = !decide (strToLower (pySuffix (pyOr uf.filename "")) ∈ SUPPORTED_EXTENSIONS) := by
  by_cases h : strToLower (pySuffix (pyOr uf.filename "")) ∈ SUPPORTED_EXTENSIONS
  · simp [extract_audio_stream, h]
  · simp [extract_audio_stream, h, extract_helper_entered]

theorem extract_supported_eq (uf : UploadFile) (o : ExtractionOutcome)
    (h : strToLower (pySuffix (pyOr uf.filename "")) ∈ SUPPORTED_EXTENSIONS) :
    extract_audio_stream uf o
      = { result := .ok (.original uf.content 0, pyOr uf.filename "audio"),
          enteredTranscoding := false, fs := [] } := by
  simp [extract_audio_stream, h]

theorem spec_supported_iff (f : String) :
    specAlreadySupported f ↔ strToLower (pySuffix f) ∈ SUPPORTED_EXTENSIONS := by
  simp [specAlreadySupported, SUPPORTED_EXTENSIONS, eq_comm]

theorem supported_filename_not_empty (uf : UploadFile)
    (h : strToLower (pySuffix (pyOr uf.filename "")) ∈ SUPPORTED_EXTENSIONS)
    (s : String) (hs : uf.filename = some s) : pyOr uf.filename "audio" = s := by
  rcases eq_or_ne s "" with h0 | h0
  · rw [hs, h0] at h
    exact absurd h (by decide)
  · rw [hs]; simp [pyOr, h0]

theorem transcribe_from_upload_apiCall_model (hasExtractionService : Bool)
    (uf : UploadFile) (model : String) (o : ExtractionOutcome)
    (apiResult : Except PyError String) (c : ApiCall)
    (h : (transcribe_from_upload hasExtractionService uf model o apiResult).apiCall = some c) :
    c.model = model := by
  cases hasExtractionService with
  | false =>
      simp only [transcribe_from_upload, Bool.false_eq_true, if_false] at h
      cases h; rfl
  | true =>
      simp only [transcribe_from_upload, if_true] at h
      split at h
      · simp at h
      · simp only [Option.some.injEq] at h
        cases h; rfl

theorem endpoint_apiCall_model (file : UploadFile) (modelForm : Option String)
    (hasExtractionService : Bool) (o : ExtractionOutcome)
    (apiResult : Except PyError String) (c : ApiCall)
    (h : (transcribe_media file modelForm hasExtractionService o apiResult).2.apiCall = some c) :
    c.model = modelForm.getD "whisper-1" := by
  by_cases hv : validContentType file.contentType
  · simp only [transcribe_media, hv, if_true] at h
    exact transcribe_from_upload_apiCall_model hasExtractionService file _ o apiResult c h
  · simp [transcribe_media, hv] at h

/-! ## Claims -/

/-- C1 (code bug): at an upload whose declared content type is
`application/pdf`, the endpoint short-circuits before any downstream call
(no `ServiceManager` call, no transcoding, no remote call), but the value it
returns is the bare Python tuple
`({"msg": "El archivo debe ser de tipo audio o video"}, 400)` — not a
`JSONResponse` with status 400.  FastAPI serializes such a return value
against the declared response model (`TranscriptionResponse`), which a tuple
cannot satisfy, so the claimed HTTP 400 is never produced. -/
theorem C1_content_type_reject_is_bare_tuple :
    transcribe_media ⟨some "doc.pdf", some "application/pdf", [1, 2, 3], 0⟩ none true
        (.success []) (.ok "text")
      = (.pythonTuple "msg" "El archivo debe ser de tipo audio o video" 400,
         { serviceManagerCalled := false, apiCall := none,
           enteredTranscoding := false, fs := [] }) := rfl

/-- C2: on every exit path of the transcoding helper — ffmpeg success,
`ffmpeg.Error`, or any other exception raised in the `try` block — neither
the input nor the output temporary file exists when the call returns or
re-raises. -/
theorem C2_temp_files_removed_on_every_exit_path (uf : UploadFile) (o : ExtractionOutcome) :
    fsRead (extract_audio_with_ffmpeg uf o).fs inputTempPath = none ∧
    fsRead (extract_audio_with_ffmpeg uf o).fs outputTempPath = none := by
  cases o <;> exact ⟨rfl, rfl⟩

/-- C3: the prober enters the already-supported branch (no transcoding)
exactly when the filename's extension, lowercased, lies in
`{.mp3, .wav, .m4a, .flac, .ogg}` — in particular a filename without an
extension goes to transcoding — and the classification depends on the
filename alone: any two uploads with the same filename (any content type,
content, position, and any outcome of the external tool) classify alike. -/
theorem C3_classification_by_extension (uf : UploadFile) (o : ExtractionOutcome) :
    ((extract_audio_stream uf o).enteredTranscoding = false ↔
      specAlreadySupported (pyOr uf.filename "")) ∧
    (∀ (uf' : UploadFile) (o' : ExtractionOutcome), uf'.filename = uf.filename →
      (extract_audio_stream uf' o').enteredTranscoding
        = (extract_audio_stream uf o).enteredTranscoding) := by
  constructor
  · rw [extract_entered_eq, spec_supported_iff]
    by_cases h : strToLower (pySuffix (pyOr uf.filename "")) ∈ SUPPORTED_EXTENSIONS <;>
      simp [h]
  · intro uf' o' hf
    rw [extract_entered_eq, extract_entered_eq, hf]

/-- C3 witness: two concrete uploads sharing the filename `VOICE.MP3` but
differing in content type, content and position classify alike. -/
theorem C3_classification_witness :
    (extract_audio_stream ⟨some "VOICE.MP3", some "audio/mpeg", [1], 0⟩
        ExtractionOutcome.ffmpegError).enteredTranscoding
      = (extract_audio_stream ⟨some "VOICE.MP3", some "application/pdf", [2, 3], 7⟩
          (ExtractionOutcome.success [])).enteredTranscoding :=
  (C3_classification_by_extension
      ⟨some "VOICE.MP3", some "application/pdf", [2, 3], 7⟩
      (ExtractionOutcome.success [])).2
    ⟨some "VOICE.MP3", some "audio/mpeg", [1], 0⟩
    ExtractionOutcome.ffmpegError rfl

/-- C4: whenever content-type validation passes and the downstream processing
raises any exception (transcoding failure, transcription failure, or any
other error), the endpoint answers with the constant 500 `JSONResponse` whose
body is `{"success": false, "error": "Error interno del servidor"}`; the body
is the same for every underlying exception, so no detail of it leaks. -/
theorem C4_uniform_500_on_processing_error (file : UploadFile)
    (modelForm : Option String) (hasExtractionService : Bool)
    (o : ExtractionOutcome) (apiResult : Except PyError String) (e : PyError)
    (hv : validContentType file.contentType = true)
    (he : (ServiceManager.transcribe_media hasExtractionService file
            (modelForm.getD "whisper-1") o apiResult).result = .error e) :
    (transcribe_media file modelForm hasExtractionService o apiResult).1
      = .jsonResponse 500 false "Error interno del servidor" := by
  simp only [transcribe_media, hv, if_true]
  split
  · rename_i t heq
    exact absurd (he.symm.trans heq) (by simp)
  · rfl

/-- C4 witness: a video upload whose transcoding attempt fails with
`ffmpeg.Error` yields exactly the generic 500 body. -/
theorem C4_uniform_500_witness :
    (transcribe_media ⟨some "clip.mp4", some "video/mp4", [1, 2], 0⟩ none true
        ExtractionOutcome.ffmpegError (.ok "t")).1
      = .jsonResponse 500 false "Error interno del servidor" :=
  C4_uniform_500_on_processing_error
    ⟨some "clip.mp4", some "video/mp4", [1, 2], 0⟩ none true
    ExtractionOutcome.ffmpegError (.ok "t") PyError.ffmpegError rfl rfl

/-- C5: on a successful transcoding run, the payload handed back is an
in-memory stream holding exactly the bytes read from the output temporary
file, under the filename `stem of the original filename + ".mp3"`. -/
theorem C5_transcoded_payload_stem_mp3 (uf : UploadFile) (s : String) (out : Bytes)
    (hf : uf.filename = some s) (hs : s ≠ "") :
    (extract_audio_with_ffmpeg uf (.success out)).result
      = .ok (.memory out 0, pyStem s ++ ".mp3") := by
  have h1 : pyOr uf.filename "audio" = s := by rw [hf]; simp [pyOr, hs]
  simp only [extract_audio_with_ffmpeg, h1]
  rfl

/-- C5 witness: transcoding `clip.mp4` with output bytes `[1, 2, 3]` yields a
payload named `clip.mp3` holding `[1, 2, 3]`. -/
theorem C5_transcoded_payload_witness :
    (extract_audio_with_ffmpeg ⟨some "clip.mp4", some "video/mp4", [9, 8], 0⟩
        (.success [1, 2, 3])).result
      = .ok (.memory [1, 2, 3] 0, "clip.mp3") :=
  C5_transcoded_payload_stem_mp3 ⟨some "clip.mp4", some "video/mp4", [9, 8], 0⟩
    "clip.mp4" [1, 2, 3] rfl (by decide)

/-- C6: for an upload whose filename has an already-supported extension, the
transcoding helper is never entered (no subprocess, no temporary files), and
the transcription client receives the upload's own stream — full content,
rewound to position 0 — under the original filename unchanged. -/
theorem C6_supported_passes_original_stream (uf : UploadFile) (model : String)
    (o : ExtractionOutcome) (apiResult : Except PyError String)
    (h : specAlreadySupported (pyOr uf.filename "")) :
    (transcribe_from_upload true uf model o apiResult).enteredTranscoding = false ∧
    (transcribe_from_upload true uf model o apiResult).fs = [] ∧
    (transcribe_from_upload true uf model o apiResult).apiCall
      = some { model := model, filename := pyOr uf.filename "audio",
               stream := .original uf.content 0 } ∧
    (∀ s : String, uf.filename = some s → pyOr uf.filename "audio" = s) := by
  have hc : strToLower (pySuffix (pyOr uf.filename "")) ∈ SUPPORTED_EXTENSIONS :=
    (spec_supported_iff (pyOr uf.filename "")).mp h
  have hex := extract_supported_eq uf o hc
  refine ⟨?_, ?_, ?_, fun s hs => supported_filename_not_empty uf hc s hs⟩ <;>
    simp [transcribe_from_upload, hex]

/-- C6 witness: uploading `voice.mp3` (stream previously read to position 3)
invokes no transcoding and calls the client with the original stream rewound
and the original name. -/
theorem C6_supported_witness :
    (transcribe_from_upload true ⟨some "voice.mp3", some "audio/mpeg", [5, 6], 3⟩
        "whisper-1" ExtractionOutcome.ffmpegError (.ok "hi")).enteredTranscoding = false ∧
    (transcribe_from_upload true ⟨some "voice.mp3", some "audio/mpeg", [5, 6], 3⟩
        "whisper-1" ExtractionOutcome.ffmpegError (.ok "hi")).fs = [] ∧
    (transcribe_from_upload true ⟨some "voice.mp3", some "audio/mpeg", [5, 6], 3⟩
        "whisper-1" ExtractionOutcome.ffmpegError (.ok "hi")).apiCall
      = some { model := "whisper-1", filename := pyOr (some "voice.mp3") "audio",
               stream := .original [5, 6] 0 } ∧
    (∀ s : String, (some "voice.mp3" : Option String) = some s →
       pyOr (some "voice.mp3") "audio" = s) :=
  C6_supported_passes_original_stream
    ⟨some "voice.mp3", some "audio/mpeg", [5, 6], 3⟩ "whisper-1"
    ExtractionOutcome.ffmpegError (.ok "hi") (by decide)

/-- C7: whenever the pipeline reaches the remote transcription call, the
model it passes is the `model` form field when one was supplied, and the
declared default `whisper-1` when the field was omitted. -/
theorem C7_model_default_and_passthrough (file : UploadFile)
    (modelForm : Option String) (hasExtractionService : Bool)
    (o : ExtractionOutcome) (apiResult : Except PyError String) :
    (modelForm = none → ∀ c : ApiCall,
      (transcribe_media file modelForm hasExtractionService o apiResult).2.apiCall
        = some c → c.model = "whisper-1") ∧
    (∀ s : String, modelForm = some s → ∀ c : ApiCall,
      (transcribe_media file modelForm hasExtractionService o apiResult).2.apiCall
        = some c → c.model = s) := by
  constructor
  · intro hm c h
    have hc := endpoint_apiCall_model file modelForm hasExtractionService o apiResult c h
    rw [hm] at hc
    exact hc
  · intro s hm c h
    have hc := endpoint_apiCall_model file modelForm hasExtractionService o apiResult c h
    rw [hm] at hc
    exact hc

/-- C7 witness: with the form field omitted on a supported audio upload, the
remote call made carries model `whisper-1`. -/
theorem C7_model_default_witness :
    ({ model := "whisper-1", filename := "voice.mp3",
       stream := .original [1] 0 } : ApiCall).model = "whisper-1" :=
  (C7_model_default_and_passthrough
      ⟨some "voice.mp3", some "audio/mpeg", [1], 0⟩ none true
      (.success []) (.ok "t")).1 rfl
    { model := "whisper-1", filename := "voice.mp3", stream := .original [1] 0 } rfl

/-- C8: `GET /health` answers 200 with body `{"status": "healthy"}` for every
request state. -/
theorem C8_health_always_healthy (u : Unit) :
    health_check u = (200, [("status", "healthy")]) := rfl

/-- C9: on both paths that forward the original upload stream without
transcoding — the already-supported path of the extraction adapter and the
fallback path used when no extraction service is injected — the stream handed
to the remote call is the upload's own stream rewound to position 0, holding
the full content. -/
theorem C9_stream_rewound_before_forwarding (uf : UploadFile) (model : String)
    (o : ExtractionOutcome) (apiResult : Except PyError String) :
    (specAlreadySupported (pyOr uf.filename "") →
      (transcribe_from_upload true uf model o apiResult).apiCall
        = some { model := model, filename := pyOr uf.filename "audio",
                 stream := .original uf.content 0 }) ∧
    (transcribe_from_upload false uf model o apiResult).apiCall
      = some { model := model, filename := pyOr uf.filename "audio",
               stream := .original uf.content 0 } := by
  constructor
  · intro h
    have hc : strToLower (pySuffix (pyOr uf.filename "")) ∈ SUPPORTED_EXTENSIONS :=
      (spec_supported_iff (pyOr uf.filename "")).mp h
    simp [transcribe_from_upload, extract_supported_eq uf o hc]
  · rfl

/-- C9 witness: a `voice.wav` upload whose stream was already read to
position 2 is forwarded rewound to position 0 with its full 3-byte content. -/
theorem C9_stream_rewound_witness :
    (transcribe_from_upload true ⟨some "voice.wav", some "audio/wav", [7, 8, 9], 2⟩
        "whisper-1" (.success []) (.ok "t")).apiCall
      = some { model := "whisper-1", filename := pyOr (some "voice.wav") "audio",
               stream := .original [7, 8, 9] 0 } :=
  (C9_stream_rewound_before_forwarding
      ⟨some "voice.wav", some "audio/wav", [7, 8, 9], 2⟩ "whisper-1"
      (.success []) (.ok "t")).1 (by decide)

/-- C10: an upload without a usable filename (`None` or `""`) breaks nothing:
the prober classifies it as needs-transcoding, a successful transcoding run
names the payload `audio.mp3`, and the no-extraction fallback path forwards
the stream under the name `audio`. -/
theorem C10_missing_filename_defaults (uf : UploadFile) (model : String)
    (o : ExtractionOutcome) (apiResult : Except PyError String) (out : Bytes)
    (h : uf.filename = none ∨ uf.filename = some "") :
    (extract_audio_stream uf o).enteredTranscoding = true ∧
    (extract_audio_with_ffmpeg uf (.success out)).result
      = .ok (.memory out 0, "audio.mp3") ∧
    (transcribe_from_upload false uf model o apiResult).apiCall
      = some { model := model, filename := "audio",
               stream := .original uf.content 0 } := by
  have hpy : pyOr uf.filename "" = "" := by
    rcases h with h | h <;> simp [pyOr, h]
  have hpy2 : pyOr uf.filename "audio" = "audio" := by
    rcases h with h | h <;> simp [pyOr, h]
  refine ⟨?_, ?_, ?_⟩
  · rw [extract_entered_eq, hpy]
    decide
  · simp only [extract_audio_with_ffmpeg, hpy2]
    rfl
  · simp [transcribe_from_upload, hpy2]

/-- C10 witness: an upload with no filename at all transcodes to `audio.mp3`
and falls back to the name `audio` on the direct path. -/
theorem C10_missing_filename_witness :
    (extract_audio_stream ⟨none, some "video/mp4", [1, 2], 0⟩
        (.success [4])).enteredTranscoding = true ∧
    (extract_audio_with_ffmpeg ⟨none, some "video/mp4", [1, 2], 0⟩
        (.success [4])).result = .ok (.memory [4] 0, "audio.mp3") ∧
    (transcribe_from_upload false ⟨none, some "video/mp4", [1, 2], 0⟩
        "whisper-1" (.success [4]) (.ok "t")).apiCall
      = some { model := "whisper-1", filename := "audio",
               stream := .original [1, 2] 0 } :=
  C10_missing_filename_defaults ⟨none, some "video/mp4", [1, 2], 0⟩
    "whisper-1" (.success [4]) (.ok "t") [4] (Or.inl rfl)

end VideoTranscriber
